import Mathlib

/-!
Shallow embedding of the secure-voting-system repository
(src/app.py, src/config.py, src/models/user_model.py, src/models/vote_model.py).

The database is modelled as lists of records inside an `AppState`; each
route-handler / entity method is modelled as a pure Lean function that
mirrors the Python source line by line.  Third-party primitives
(werkzeug password hashing, the Fernet authenticated cipher) are not part
of this repository; they are modelled by their documented contracts.
-/

namespace Voting

/-- Model of Python `str.strip()`: drop leading and trailing whitespace.
Implemented over the underlying character list so that it evaluates by
kernel reduction. -/
def pyStrip (s : String) : String :=
  ⟨((s.data.dropWhile Char.isWhitespace).reverse.dropWhile Char.isWhitespace).reverse⟩

/-- Model of Python `str.lower()` (the repository only lowercases ASCII
email addresses). -/
def pyLower (s : String) : String :=
  ⟨s.data.map Char.toLower⟩

/-- Model of a werkzeug password hash (external library contract: a salted
one-way hash; `check_password_hash (generate_password_hash p) q` holds
exactly when `p = q`).  The salt plays no observable role in that contract,
so a hash is represented by the plaintext it was derived from. -/
inductive PHash where
  | mk (plain : String)
deriving DecidableEq, Repr

/-- Model of werkzeug `generate_password_hash`. -/
def generate_password_hash (p : String) : PHash := PHash.mk p

/-- Model of werkzeug `check_password_hash`: verification by recomputation. -/
def check_password_hash (h : PHash) (q : String) : Bool :=
  match h with
  | PHash.mk p => p == q

/-- Row of the `users` table (src/models/user_model.py, class User). -/
structure User where
  id : Int
  username : String
  email : String
  password_hash : PHash
  is_admin : Bool
  security_key_hash : Option PHash
deriving DecidableEq, Repr

/-- Method `User.set_password` (user_model.py lines 20-21). -/
def User.set_password (u : User) (password : String) : User :=
  { u with password_hash := generate_password_hash password }

/-- Method `User.check_password` (user_model.py lines 23-24). -/
def User.check_password (u : User) (password : String) : Bool :=
  check_password_hash u.password_hash password

/-- Method `User.set_security_key` (user_model.py lines 26-30).
Python truthiness: `if security_key:` is false for `None` and for the empty
string, and the check happens BEFORE `.strip()` is applied. -/
def User.set_security_key (u : User) (security_key : Option String) : User :=
  match security_key with
  | some s =>
      if s ≠ "" then { u with security_key_hash := some (generate_password_hash (pyStrip s)) }
      else { u with security_key_hash := none }
  | none => { u with security_key_hash := none }

/-- Method `User.verify_security_key` (user_model.py lines 32-35):
`if not security_key or not self.security_key_hash: return False;
 return check_password_hash(self.security_key_hash, security_key.strip())`. -/
def User.verify_security_key (u : User) (security_key : Option String) : Bool :=
  match security_key, u.security_key_hash with
  | some s, some h => if s = "" then false else check_password_hash h (pyStrip s)
  | _, _ => false

/-- Model of a Fernet token (external `cryptography.fernet` contract:
authenticated symmetric encryption — decryption under a key succeeds
exactly on tokens that were produced by encryption under that same key,
and yields the original plaintext; every other byte string is rejected).
`valid key plain` is a token produced by encrypting `plain` under `key`;
`garbage data` is any other (tampered / corrupted / foreign) string. -/
inductive FernetToken where
  | valid (key : String) (plain : String)
  | garbage (data : String)
deriving DecidableEq, Repr

/-- Model of `Fernet(key).encrypt` (external library contract). -/
def fernet_encrypt (key plain : String) : FernetToken :=
  FernetToken.valid key plain

/-- Model of `Fernet(key).decrypt`: `some` on success, `none` when the
library would raise (wrong key or corrupted token). -/
def fernet_decrypt (key : String) : FernetToken → Option String
  | FernetToken.valid k p => if k = key then some p else none
  | FernetToken.garbage _ => none

/-- Helper `encrypt_choice` (app.py lines 170-171). -/
def encrypt_choice (key : String) (candidate_name : String) : FernetToken :=
  fernet_encrypt key candidate_name

/-- Helper `decrypt_choice` (app.py lines 173-179): `None` for an absent token;
the `try/except` around `cipher.decrypt` is modelled by the `Option`
result of `fernet_decrypt` — every failure becomes `none`, nothing is
raised. -/
def decrypt_choice (key : String) (token : Option FernetToken) : Option String :=
  match token with
  | none => none
  | some t =>
      match fernet_decrypt key t with
      | some plain => some plain
      | none => none

/-- Row of the `campaigns` table (src/models/vote_model.py, class Campaign).
`created_at` is the server-assigned creation timestamp, modelled as a
natural number. -/
structure Campaign where
  id : Int
  name : String
  description : Option String
  is_active : Bool
  created_at : Nat
deriving DecidableEq, Repr

/-- Row of the `candidates` table (src/models/vote_model.py, class Candidate). -/
structure Candidate where
  id : Int
  name : String
  manifesto : Option String
  campaign_id : Int
deriving DecidableEq, Repr

/-- Row of the `votes` table (src/models/vote_model.py, class Vote). -/
structure Vote where
  id : Int
  timestamp : Nat
  user_id : Int
  candidate_id : Int
  campaign_id : Int
  encrypted_choice : Option FernetToken
deriving DecidableEq, Repr

/-- The relational database state: one list per table, plus the
auto-increment counters for the primary keys the handlers create. -/
structure AppState where
  users : List User
  campaigns : List Campaign
  candidates : List Candidate
  votes : List Vote
  next_user_id : Int
  next_campaign_id : Int
  next_candidate_id : Int
  next_vote_id : Int
deriving DecidableEq, Repr

/-- The primary-admin email literal (app.py line 67). -/
def primary_email : String := "1@gmail.com"

/-- Routine `enforce_primary_admin` (app.py lines 66-83), as a pure function on
the `users` table.  Returns the updated table together with the `changes`
flag (whether `db.session.commit()` ran, i.e. whether any write happened).
`User.query.filter_by(email=...).first()` is the first list element with
that email; the demotion loop touches every other user whose `is_admin`
flag is set; the promotion touches the found user if not already admin. -/
def enforce_primary_admin (users : List User) : List User × Bool :=
  match users.find? (fun u => u.email == primary_email) with
  | none => (users, false)
  | some primary_user =>
      let demote_changes := users.any (fun u => u.email != primary_email && u.is_admin)
      let users1 := users.map (fun u =>
        if u.email != primary_email && u.is_admin then { u with is_admin := false } else u)
      let users2 :=
        if primary_user.is_admin then users1
        else users1.map (fun u =>
          if u.id == primary_user.id then { u with is_admin := true } else u)
      (users2, demote_changes || !primary_user.is_admin)

/-- Digit run of a Python `int()` literal, `none` if empty or non-digit. -/
def digitsToNat? (cs : List Char) : Option Nat :=
  match cs with
  | [] => none
  | _ =>
      cs.foldl
        (fun acc c =>
          match acc with
          | none => none
          | some n => if c.isDigit then some (n * 10 + (c.toNat - ('0').toNat)) else none)
        (some 0)

/-- Model of Python `int(str)`: optional surrounding whitespace, optional
sign, decimal digits; `none` where Python raises `ValueError`. -/
def pyInt? (s : String) : Option Int :=
  match (pyStrip s).data with
  | '-' :: ds => (digitsToNat? ds).map (fun n => -(n : Int))
  | '+' :: ds => (digitsToNat? ds).map (fun n => (n : Int))
  | ds => (digitsToNat? ds).map (fun n => (n : Int))

/-- Outcome of the `cast_vote` handler (app.py lines 280-317); one
constructor per exit path. -/
inductive CastOutcome where
  | adminRedirect
  | keyMismatch
  | candidateNotFound
  | campaignNotAccepting
  | alreadyVoted
  | voteSubmitted
deriving DecidableEq, Repr

/-- The flash notice (message, category) each `cast_vote` exit path
emits; the 404 path emits none. -/
def castFlash : CastOutcome → Option (String × String)
  | CastOutcome.adminRedirect => some ("Admins cannot vote.", "warning")
  | CastOutcome.keyMismatch => some ("Security key mismatch.", "danger")
  | CastOutcome.candidateNotFound => none
  | CastOutcome.campaignNotAccepting => some ("This campaign is not accepting votes.", "warning")
  | CastOutcome.alreadyVoted => some ("You have already voted in this campaign.", "info")
  | CastOutcome.voteSubmitted => some ("Vote submitted successfully!", "success")

/-- Handler `cast_vote` (app.py lines 280-317).  `key` is the configured
symmetric encryption key, `cu` the logged-in `current_user`, `now` the
current timestamp.  `candidate.campaign` is the relationship lookup of
`candidate.campaign_id` in the campaigns table; the already-voted check
is `Vote.query.filter_by(user_id=..., campaign_id=...).first()`. -/
def cast_vote (key : String) (s : AppState) (cu : User) (candidate_id : Int)
    (security_key_form : String) (now : Nat) : AppState × CastOutcome :=
  if cu.is_admin then (s, CastOutcome.adminRedirect)
  else
    let security_key := pyStrip security_key_form
    if !(cu.verify_security_key (some security_key)) then (s, CastOutcome.keyMismatch)
    else
      match s.candidates.find? (fun c => c.id == candidate_id) with
      | none => (s, CastOutcome.candidateNotFound)
      | some candidate =>
          match s.campaigns.find? (fun c => c.id == candidate.campaign_id) with
          | none => (s, CastOutcome.campaignNotAccepting)
          | some campaign =>
              if !campaign.is_active then (s, CastOutcome.campaignNotAccepting)
              else
                match s.votes.find? (fun v => v.user_id == cu.id && v.campaign_id == campaign.id) with
                | some _ => (s, CastOutcome.alreadyVoted)
                | none =>
                    let vote : Vote :=
                      { id := s.next_vote_id
                        timestamp := now
                        user_id := cu.id
                        candidate_id := candidate.id
                        campaign_id := campaign.id
                        encrypted_choice := some (encrypt_choice key candidate.name) }
                    ({ s with votes := s.votes ++ [vote], next_vote_id := s.next_vote_id + 1 },
                     CastOutcome.voteSubmitted)

/-- Outcome of a POST to `admin_voters` (app.py lines 368-387). -/
inductive VoterActionOutcome where
  | notFound
  | selfModification
  | roleUpdated
  | userDeleted
  | ignored
deriving DecidableEq, Repr

/-- POST branch of `admin_voters` (app.py lines 368-387).  The target is
looked up by id first (`get_or_404`); the self-target check runs before
the `action` value is inspected.  Deleting a user cascades the user's
votes (user_model.py line 18: `cascade="all, delete-orphan"`). -/
def admin_voters_post (s : AppState) (current_user_id : Int) (action : Option String)
    (user_id : Option Int) : AppState × VoterActionOutcome :=
  match user_id with
  | none => (s, VoterActionOutcome.notFound)
  | some uid =>
      match s.users.find? (fun u => u.id == uid) with
      | none => (s, VoterActionOutcome.notFound)
      | some target =>
          if target.id == current_user_id then (s, VoterActionOutcome.selfModification)
          else if action == some "toggle_admin" then
            ({ s with users := s.users.map (fun u =>
                if u.id == target.id then { u with is_admin := !u.is_admin } else u) },
             VoterActionOutcome.roleUpdated)
          else if action == some "delete" then
            ({ s with
                users := s.users.filter (fun u => !(u.id == target.id))
                votes := s.votes.filter (fun v => !(v.user_id == target.id)) },
             VoterActionOutcome.userDeleted)
          else (s, VoterActionOutcome.ignored)

/-- Outcome of a POST to `admin_campaigns` (app.py lines 404-461). -/
inductive CampaignActionOutcome where
  | nameRequired
  | nameNotUnique
  | campaignCreated
  | campaignNotFound
  | nameEmpty
  | campaignUpdated
  | toggled (now_active : Bool)
  | deleteRefused
  | campaignDeleted
  | noAction
deriving DecidableEq, Repr

/-- Form-id parse in `admin_campaigns` (app.py lines 412-416):
`int(campaign_id_raw) if campaign_id_raw else None`, with
`TypeError/ValueError` caught to `None`. -/
def parse_campaign_id (raw : Option String) : Option Int :=
  match raw with
  | none => none
  | some str => if str = "" then none else pyInt? str

/-- POST branch of `admin_campaigns` (app.py lines 404-461).  `create`
runs before the `get_or_404` lookup; `delete` is refused whenever
`campaign.votes` (the votes whose `campaign_id` references it) is
non-empty, and otherwise cascades the campaign's candidates
(vote_model.py lines 15-17, `cascade="all, delete-orphan"`), each
candidate's votes (line 29, `cascade="all, delete"`), and the campaign's
votes (line 18, `cascade="all, delete"`). -/
def admin_campaigns_post (s : AppState) (now : Nat) (action : Option String)
    (name_form description_form is_active_form campaign_id_raw : Option String) :
    AppState × CampaignActionOutcome :=
  let name := pyStrip (name_form.getD "")
  let description := pyStrip (description_form.getD "")
  let is_active := is_active_form == some "on"
  let campaign_id := parse_campaign_id campaign_id_raw
  if action == some "create" then
    if name = "" then (s, CampaignActionOutcome.nameRequired)
    else if (s.campaigns.find? (fun c => c.name == name)).isSome then
      (s, CampaignActionOutcome.nameNotUnique)
    else
      ({ s with
          campaigns := s.campaigns ++
            [{ id := s.next_campaign_id
               name := name
               description := if description = "" then none else some description
               is_active := is_active
               created_at := now }]
          next_campaign_id := s.next_campaign_id + 1 },
       CampaignActionOutcome.campaignCreated)
  else
    match campaign_id with
    | none => (s, CampaignActionOutcome.campaignNotFound)
    | some cid =>
        match s.campaigns.find? (fun c => c.id == cid) with
        | none => (s, CampaignActionOutcome.campaignNotFound)
        | some campaign =>
            if action == some "update" then
              if name = "" then (s, CampaignActionOutcome.nameEmpty)
              else
                ({ s with campaigns := s.campaigns.map (fun c =>
                    if c.id == campaign.id then
                      { c with
                          name := name
                          description := if description = "" then none else some description
                          is_active := is_active }
                    else c) },
                 CampaignActionOutcome.campaignUpdated)
            else if action == some "toggle_active" then
              ({ s with campaigns := s.campaigns.map (fun c =>
                  if c.id == campaign.id then { c with is_active := !c.is_active } else c) },
               CampaignActionOutcome.toggled (!campaign.is_active))
            else if action == some "delete" then
              if !(s.votes.filter (fun v => v.campaign_id == campaign.id)).isEmpty then
                (s, CampaignActionOutcome.deleteRefused)
              else
                ({ s with
                    campaigns := s.campaigns.filter (fun c => !(c.id == campaign.id))
                    candidates := s.candidates.filter (fun c => !(c.campaign_id == campaign.id))
                    votes := s.votes.filter (fun v =>
                      !(v.campaign_id == campaign.id) &&
                      !(s.candidates.any (fun c =>
                          c.campaign_id == campaign.id && c.id == v.candidate_id))) },
                 CampaignActionOutcome.campaignDeleted)
            else (s, CampaignActionOutcome.noAction)

/-- Insert a campaign into a list sorted by `created_at` descending. -/
def insertByNewest (c : Campaign) : List Campaign → List Campaign
  | [] => [c]
  | d :: ds => if d.created_at ≤ c.created_at then c :: d :: ds else d :: insertByNewest c ds

/-- Query `Campaign.query.order_by(Campaign.created_at.desc()).all()`
(app.py lines 471-473): the campaigns table sorted newest-first. -/
def order_by_created_desc (cs : List Campaign) : List Campaign :=
  cs.foldr insertByNewest []

/-- Outcome of a request to `admin_candidates` (app.py lines 468-547). -/
inductive CandidateActionOutcome where
  | redirectNoCampaigns
  | nameRequired
  | selectCampaign
  | candidateCreated
  | candidateNotFound
  | nameEmpty
  | candidateUpdated
  | candidateRemoved
  | ignored
deriving DecidableEq, Repr

/-- POST branch of `admin_candidates` (app.py lines 468-534).
`query_campaign_id` is the already-parsed `campaign_id` query parameter
(`request.args.get("campaign_id", type=int)`, `none` when absent or
unparseable); `selected` falls back to the newest campaign's id when the
parameter does not match an existing campaign.  The form `campaign_id`
falls back to `selected` when absent, empty, or unparseable (app.py
lines 489-497).  Deleting a candidate cascades its votes
(vote_model.py line 29). -/
def admin_candidates_post (s : AppState) (query_campaign_id : Option Int)
    (action : Option String) (name_form manifesto_form : String)
    (candidate_id : Option Int) (campaign_id_raw : Option String) :
    AppState × CandidateActionOutcome :=
  match order_by_created_desc s.campaigns with
  | [] => (s, CandidateActionOutcome.redirectNoCampaigns)
  | first :: _ =>
      let selected_campaign_id :=
        match query_campaign_id with
        | some q => if s.campaigns.any (fun c => c.id == q) then q else first.id
        | none => first.id
      let name := pyStrip name_form
      let manifesto := pyStrip manifesto_form
      let campaign_id :=
        match campaign_id_raw with
        | none => selected_campaign_id
        | some raw =>
            if raw = "" then selected_campaign_id
            else
              match pyInt? raw with
              | some n => n
              | none => selected_campaign_id
      if action == some "create" then
        if name = "" then (s, CandidateActionOutcome.nameRequired)
        else if campaign_id == 0 then (s, CandidateActionOutcome.selectCampaign)
        else
          ({ s with
              candidates := s.candidates ++
                [{ id := s.next_candidate_id
                   name := name
                   manifesto := if manifesto = "" then none else some manifesto
                   campaign_id := campaign_id }]
              next_candidate_id := s.next_candidate_id + 1 },
           CandidateActionOutcome.candidateCreated)
      else
        match candidate_id with
        | none => (s, CandidateActionOutcome.candidateNotFound)
        | some cid =>
            match s.candidates.find? (fun c => c.id == cid) with
            | none => (s, CandidateActionOutcome.candidateNotFound)
            | some candidate =>
                if action == some "update" then
                  if name = "" then (s, CandidateActionOutcome.nameEmpty)
                  else
                    ({ s with candidates := s.candidates.map (fun c =>
                        if c.id == candidate.id then
                          { c with
                              name := name
                              manifesto := if manifesto = "" then none else some manifesto
                              campaign_id := if campaign_id ≠ 0 then campaign_id else c.campaign_id }
                        else c) },
                     CandidateActionOutcome.candidateUpdated)
                else if action == some "delete" then
                  ({ s with
                      candidates := s.candidates.filter (fun c => !(c.id == candidate.id))
                      votes := s.votes.filter (fun v => !(v.candidate_id == candidate.id)) },
                   CandidateActionOutcome.candidateRemoved)
                else (s, CandidateActionOutcome.ignored)

/-- Outcome of a POST to `signup` (app.py lines 189-225). -/
inductive SignupOutcome where
  | redirectAuthenticated
  | formErrors (msgs : List String)
  | accountCreated
deriving DecidableEq, Repr

/-- POST branch of `signup` (app.py lines 189-225).  Username and
security key are stripped, the email is stripped and lowercased, the
password is taken verbatim; the three validations accumulate error
messages; on success the account is created with `is_admin` set exactly
for the primary-admin email and the security key cleared for the primary
admin, hashed (trimmed) otherwise. -/
def signup_post (s : AppState) (authenticated : Bool)
    (username_form email_form password_form security_key_form : String) :
    AppState × SignupOutcome :=
  if authenticated then (s, SignupOutcome.redirectAuthenticated)
  else
    let username := pyStrip username_form
    let email := pyLower (pyStrip email_form)
    let password := password_form
    let security_key := pyStrip security_key_form
    let is_primary_admin := email == "1@gmail.com"
    let errors :=
      (if username = "" ∨ email = "" ∨ password = "" then ["All fields are required."] else []) ++
      (if (s.users.find? (fun u => u.email == email)).isSome then ["Email is already registered."] else []) ++
      (if ¬is_primary_admin ∧ security_key = "" then ["Security key is required for voters."] else [])
    if errors ≠ [] then (s, SignupOutcome.formErrors errors)
    else
      let user : User :=
        { id := s.next_user_id
          username := username
          email := email
          password_hash := generate_password_hash password
          is_admin := is_primary_admin
          security_key_hash := none }
      let user :=
        if is_primary_admin then user.set_security_key none
        else user.set_security_key (some security_key)
      ({ s with users := s.users ++ [user], next_user_id := s.next_user_id + 1 },
       SignupOutcome.accountCreated)

/-- POST branch of `login` (app.py lines 227-250), for an
unauthenticated caller.  Returns the established session (the logged-in
user's id, or `none`) and the flash notices in emission order.  Note the
missing `return` after the "Invalid security key." flash in the source:
control falls through to the generic "Invalid email or password." flash
on that path. -/
def login_post (s : AppState) (email_form password_form security_key_form : String) :
    Option Int × List (String × String) :=
  let email := pyLower (pyStrip email_form)
  let password := password_form
  let security_key := pyStrip security_key_form
  match s.users.find? (fun u => u.email == email) with
  | some user =>
      if user.check_password password then
        if !user.is_admin && !(user.verify_security_key (some security_key)) then
          (none, [("Invalid security key.", "danger"), ("Invalid email or password.", "danger")])
        else
          (some user.id, [("Welcome back!", "success")])
      else (none, [("Invalid email or password.", "danger")])
  | none => (none, [("Invalid email or password.", "danger")])

/-! ## Theorems about the claims -/

/-- C3: for every candidate-name string, decrypting the result of
encrypting it under the configured symmetric key returns the original
string exactly; decrypting an absent token returns `none`; decrypting a
garbage token returns `none`; decrypting a token produced under another
key returns the plaintext only when the keys coincide, `none` otherwise.
`decrypt_choice` is a total function into `Option String`, so no
exception can escape. -/
theorem c3_decrypt_encrypt_roundtrip :
    (∀ key name : String,
        decrypt_choice key (some (encrypt_choice key name)) = some name) ∧
    (∀ key : String, decrypt_choice key none = none) ∧
    (∀ key data : String,
        decrypt_choice key (some (FernetToken.garbage data)) = none) ∧
    (∀ key otherKey plain : String,
        decrypt_choice key (some (FernetToken.valid otherKey plain)) =
          if otherKey = key then some plain else none) := by
  refine ⟨fun key name => ?_, fun key => rfl, fun key data => rfl, fun key otherKey plain => ?_⟩
  · simp [decrypt_choice, encrypt_choice, fernet_encrypt, fernet_decrypt]
  · by_cases h : otherKey = key <;> simp [decrypt_choice, fernet_decrypt, h]

/-- C7: security-key verification returns false immediately when the
candidate is absent or empty or when no hash is stored; otherwise it
compares the (werkzeug) hash of the trimmed candidate against the
stored hash; for a hash stored from "ABC123" it succeeds on "ABC123"
and on " ABC123 " and fails on "abc123" and on an empty/absent
candidate. -/
theorem c7_verify_security_key (u : User) :
    (u.verify_security_key none = false) ∧
    (u.verify_security_key (some "") = false) ∧
    (∀ k, u.security_key_hash = none → u.verify_security_key k = false) ∧
    (∀ s h, s ≠ "" → u.security_key_hash = some h →
        u.verify_security_key (some s) = check_password_hash h (pyStrip s)) ∧
    ((u.set_security_key (some "ABC123")).verify_security_key (some "ABC123") = true ∧
     (u.set_security_key (some "ABC123")).verify_security_key (some " ABC123 ") = true ∧
     (u.set_security_key (some "ABC123")).verify_security_key (some "abc123") = false ∧
     (u.set_security_key (some "ABC123")).verify_security_key (some "") = false ∧
     (u.set_security_key (some "ABC123")).verify_security_key none = false) := by
  refine ⟨rfl, ?_, fun k hk => ?_, fun s h hs hh => ?_, rfl, rfl, rfl, rfl, rfl⟩
  · cases h : u.security_key_hash <;> simp [User.verify_security_key, h]
  · cases k with
    | none => rfl
    | some s => simp [User.verify_security_key, hk]
  · simp [User.verify_security_key, hh, hs]

/-- C7 witness: the hypothesised parts of `c7_verify_security_key`
evaluated on a concrete user. -/
theorem c7_verify_security_key_witness :
    ((User.mk 1 "v" "v@x.com" (generate_password_hash "pw") false none).verify_security_key
        (some "ABC123") = false) ∧
    ((User.mk 1 "v" "v@x.com" (generate_password_hash "pw") false
        (some (generate_password_hash "ABC123"))).verify_security_key (some " ABC123 ") =
      check_password_hash (generate_password_hash "ABC123") (pyStrip " ABC123 ")) := by
  exact ⟨(c7_verify_security_key _).2.2.1 (some "ABC123") rfl,
    (c7_verify_security_key _).2.2.2.1 " ABC123 " (generate_password_hash "ABC123")
      (by decide) rfl⟩

/-- C8 counterexample: setting the security key with the whitespace-only
string " " (empty after trimming) does NOT clear the stored hash — the
truthiness check in the source runs before `.strip()`, so a hash of the
empty string is stored instead. -/
theorem c8_counterexample :
    ((User.mk 1 "v" "v@x.com" (generate_password_hash "pw") false
        (some (generate_password_hash "OLD"))).set_security_key (some " ")).security_key_hash =
      some (generate_password_hash "") ∧
    ((User.mk 1 "v" "v@x.com" (generate_password_hash "pw") false
        (some (generate_password_hash "OLD"))).set_security_key (some " ")).security_key_hash ≠
      none := by
  refine ⟨?_, ?_⟩ <;> decide

/-- C8 (amended): setting the security key with an absent value or the
empty string (emptiness checked BEFORE trimming) clears the stored hash
to absent; setting it with any non-empty string — including a
whitespace-only one — stores a one-way hash of the trimmed value (the
hash of the empty string in the whitespace-only case). -/
theorem c8_set_security_key (u : User) :
    ((u.set_security_key none).security_key_hash = none) ∧
    ((u.set_security_key (some "")).security_key_hash = none) ∧
    (∀ s : String, s ≠ "" →
        (u.set_security_key (some s)).security_key_hash =
          some (generate_password_hash (pyStrip s))) := by
  refine ⟨rfl, rfl, fun s hs => ?_⟩
  simp [User.set_security_key, hs]

/-- C8 witness: the hypothesised part of `c8_set_security_key` evaluated
on a concrete user and the whitespace-only key " ". -/
theorem c8_set_security_key_witness :
    ((User.mk 1 "v" "v@x.com" (generate_password_hash "pw") false none).set_security_key
        (some " ")).security_key_hash = some (generate_password_hash (pyStrip " ")) :=
  (c8_set_security_key _).2.2 " " (by decide)

/-- C10: a POST to `admin_voters` whose target user id equals the
caller's own id is refused with the "You cannot modify your own role."
warning and changes nothing, for EVERY action value — including
"delete" and unknown or missing actions — because the self-target check
runs before the action dispatch. -/
theorem c10_admin_voters_self_target (s : AppState) (cuid uid : Int) (target : User)
    (hfind : s.users.find? (fun u => u.id == uid) = some target)
    (hself : target.id = cuid) :
    ∀ action : Option String,
      admin_voters_post s cuid action (some uid) = (s, VoterActionOutcome.selfModification) := by
  intro action
  simp [admin_voters_post, hfind, hself]

/-- A concrete admin account used by witnesses. -/
def exampleAdmin : User :=
  User.mk 7 "adm" "1@gmail.com" (generate_password_hash "pw") true none

/-- A concrete one-user state used by the C10 witness. -/
def exampleVoterState : AppState :=
  AppState.mk [exampleAdmin] [] [] [] 8 1 1 1

/-- C10 witness: `c10_admin_voters_self_target` applied to a concrete
state, for the actions "delete", "toggle_admin", an unknown action and
a missing action. -/
theorem c10_admin_voters_self_target_witness :
    (admin_voters_post exampleVoterState 7 (some "delete") (some 7) =
      (exampleVoterState, VoterActionOutcome.selfModification)) ∧
    (admin_voters_post exampleVoterState 7 (some "toggle_admin") (some 7) =
      (exampleVoterState, VoterActionOutcome.selfModification)) ∧
    (admin_voters_post exampleVoterState 7 (some "mystery") (some 7) =
      (exampleVoterState, VoterActionOutcome.selfModification)) ∧
    (admin_voters_post exampleVoterState 7 none (some 7) =
      (exampleVoterState, VoterActionOutcome.selfModification)) :=
  ⟨c10_admin_voters_self_target exampleVoterState 7 7 exampleAdmin (by decide) (by decide)
      (some "delete"),
   c10_admin_voters_self_target exampleVoterState 7 7 exampleAdmin (by decide) (by decide)
      (some "toggle_admin"),
   c10_admin_voters_self_target exampleVoterState 7 7 exampleAdmin (by decide) (by decide)
      (some "mystery"),
   c10_admin_voters_self_target exampleVoterState 7 7 exampleAdmin (by decide) (by decide) none⟩

/-- A user table in which exactly the primary-admin email holds the
admin flag is a fixed point of `enforce_primary_admin`, and the routine
reports no changes on it. -/
theorem enforce_primary_admin_fixed (l : List User)
    (hall : ∀ u ∈ l, u.is_admin = (u.email == primary_email))
    (hex : ∃ u ∈ l, u.email = primary_email) :
    enforce_primary_admin l = (l, false) := by
  obtain ⟨w, hwmem, hwp⟩ := hex
  have hsome : (l.find? (fun u => u.email == primary_email)).isSome := by
    rw [List.find?_isSome]
    exact ⟨w, hwmem, by simp [hwp]⟩
  obtain ⟨q, hfind⟩ := Option.isSome_iff_exists.mp hsome
  have hqmem : q ∈ l := List.mem_of_find?_eq_some hfind
  have hqp : (q.email == primary_email) = true := by
    have := List.find?_some hfind
    simpa using this
  have hqadmin : q.is_admin = true := by rw [hall q hqmem, hqp]
  have hmap : l.map (fun u =>
      if u.email != primary_email && u.is_admin then { u with is_admin := false } else u) = l := by
    have := List.map_congr_left (l := l)
      (f := fun u => if u.email != primary_email && u.is_admin then { u with is_admin := false } else u)
      (g := fun u => u) ?_
    · simpa using this
    · intro u hu
      by_cases hue : u.email = primary_email
      · simp [hue]
      · have : u.is_admin = false := by
          rw [hall u hu]
          simp [hue]
        simp [this]
  have hany : l.any (fun u => u.email != primary_email && u.is_admin) = false := by
    rw [List.any_eq_false]
    intro u hu
    by_cases hue : u.email = primary_email
    · simp [hue]
    · have : u.is_admin = false := by
        rw [hall u hu]
        simp [hue]
      simp [this]
  unfold enforce_primary_admin
  rw [hfind]
  simp only [hany, hqadmin, hmap, if_pos rfl, Bool.not_true, Bool.false_or, if_true]

/-- Overwriting the `is_admin` field with the value it already holds is
the identity. -/
theorem User.overwrite_admin_self (u : User) (b : Bool) (h : u.is_admin = b) :
    ({ u with is_admin := b } : User) = u := by
  cases u
  cases h
  rfl

/-- C2: with the database's uniqueness of emails and of ids, the
primary-admin-enforcement routine does nothing when no user has email
"1@gmail.com"; when such a user exists it rewrites the table so that
exactly the users with that email (i.e. exactly that one user) carry
`is_admin = true` and everyone else carries `false`, leaving all other
fields and the order untouched; and running it again on the result
changes nothing and reports no writes. -/
theorem c2_enforce_primary_admin (users : List User)
    (hemail : (users.map User.email).Nodup)
    (hid : (users.map User.id).Nodup) :
    (users.find? (fun u => u.email == primary_email) = none →
        enforce_primary_admin users = (users, false)) ∧
    (∀ p, users.find? (fun u => u.email == primary_email) = some p →
        (enforce_primary_admin users).1 =
          users.map (fun u => { u with is_admin := u.email == primary_email }) ∧
        enforce_primary_admin (enforce_primary_admin users).1 =
          ((enforce_primary_admin users).1, false)) := by
  constructor
  · intro hnone
    unfold enforce_primary_admin
    rw [hnone]
  · intro p hfind
    have hpmem : p ∈ users := List.mem_of_find?_eq_some hfind
    have hpemail' : p.email = primary_email := by
      have := List.find?_some hfind
      simpa using this
    have hmain : (enforce_primary_admin users).1 =
        users.map (fun u => { u with is_admin := u.email == primary_email }) := by
      unfold enforce_primary_admin
      rw [hfind]
      dsimp only
      by_cases hpad : p.is_admin
      · rw [if_pos hpad]
        refine List.map_congr_left fun u hu => ?_
        dsimp only
        by_cases hue : u.email = primary_email
        · have hup : u = p :=
            List.inj_on_of_nodup_map hemail hu hpmem (by rw [hue, hpemail'])
          have hua : u.is_admin = true := by rw [hup]; exact hpad
          have hb : (u.email == primary_email) = true := by simp [hue]
          rw [if_neg (by simp [hue]), hb]
          exact (User.overwrite_admin_self u true hua).symm
        · have hb : (u.email == primary_email) = false := by simp [hue]
          by_cases hua : u.is_admin
          · rw [if_pos (by simp [hue, hua]), hb]
          · have hua' : u.is_admin = false := by simpa using hua
            rw [if_neg (by simp [hua']), hb]
            exact (User.overwrite_admin_self u false hua').symm
      · rw [if_neg hpad, List.map_map]
        refine List.map_congr_left fun u hu => ?_
        dsimp only [Function.comp]
        by_cases hue : u.email = primary_email
        · have hup : u = p :=
            List.inj_on_of_nodup_map hemail hu hpmem (by rw [hue, hpemail'])
          have hc1 : ¬((u.email != primary_email && u.is_admin) = true) := by simp [hue]
          rw [if_neg hc1]
          have hc2 : (u.id == p.id) = true := by rw [hup]; simp
          rw [if_pos hc2]
          have hb : (u.email == primary_email) = true := by simp [hue]
          rw [hb]
        · have hune : u.id ≠ p.id := by
            intro hidu
            exact hue (by rw [List.inj_on_of_nodup_map hid hu hpmem hidu, hpemail'])
          have hb : (u.email == primary_email) = false := by simp [hue]
          by_cases hua : u.is_admin
          · have hc1 : (u.email != primary_email && u.is_admin) = true := by simp [hue, hua]
            rw [if_pos hc1]
            have hc2 : ¬((({ u with is_admin := false } : User).id == p.id) = true) := by
              simp [hune]
            rw [if_neg hc2, hb]
          · have hua' : u.is_admin = false := by simpa using hua
            have hc1 : ¬((u.email != primary_email && u.is_admin) = true) := by simp [hua']
            rw [if_neg hc1]
            have hc2 : ¬((u.id == p.id) = true) := by simp [hune]
            rw [if_neg hc2, hb]
            exact (User.overwrite_admin_self u false hua').symm
    refine ⟨hmain, ?_⟩
    rw [hmain]
    apply enforce_primary_admin_fixed
    · intro u hu
      obtain ⟨v, _, rfl⟩ := List.mem_map.mp hu
      rfl
    · exact ⟨{ p with is_admin := p.email == primary_email },
        List.mem_map.mpr ⟨p, hpmem, rfl⟩, hpemail'⟩

/-- C2 witness: `c2_enforce_primary_admin` applied to a concrete
two-user table where another user holds the admin flag and the primary
admin does not. -/
theorem c2_enforce_primary_admin_witness :
    (enforce_primary_admin
        [User.mk 1 "a" "a@b.c" (generate_password_hash "x") true none,
         User.mk 2 "p" "1@gmail.com" (generate_password_hash "y") false none]).1 =
      [User.mk 1 "a" "a@b.c" (generate_password_hash "x") true none,
       User.mk 2 "p" "1@gmail.com" (generate_password_hash "y") false none].map
        (fun u => { u with is_admin := u.email == primary_email }) ∧
    enforce_primary_admin
        (enforce_primary_admin
          [User.mk 1 "a" "a@b.c" (generate_password_hash "x") true none,
           User.mk 2 "p" "1@gmail.com" (generate_password_hash "y") false none]).1 =
      ((enforce_primary_admin
          [User.mk 1 "a" "a@b.c" (generate_password_hash "x") true none,
           User.mk 2 "p" "1@gmail.com" (generate_password_hash "y") false none]).1, false) :=
  (c2_enforce_primary_admin _ (by decide) (by decide)).2
    (User.mk 2 "p" "1@gmail.com" (generate_password_hash "y") false none) (by decide)

/-- C6: the admin `delete` campaign action is refused (danger notice,
state untouched) whenever at least one vote references the campaign;
with zero votes referencing it, the action deletes the campaign and
every candidate assigned to it, keeping all other campaigns. -/
theorem c6_campaign_delete (s : AppState) (now : Nat) (cid : Int) (camp : Campaign)
    (nf df af raw : Option String)
    (hparse : parse_campaign_id raw = some cid)
    (hfind : s.campaigns.find? (fun c => c.id == cid) = some camp) :
    ((∃ v ∈ s.votes, v.campaign_id = camp.id) →
        admin_campaigns_post s now (some "delete") nf df af raw =
          (s, CampaignActionOutcome.deleteRefused)) ∧
    ((∀ v ∈ s.votes, v.campaign_id ≠ camp.id) →
        admin_campaigns_post s now (some "delete") nf df af raw =
          ({ s with
              campaigns := s.campaigns.filter (fun c => !(c.id == camp.id))
              candidates := s.candidates.filter (fun c => !(c.campaign_id == camp.id))
              votes := s.votes.filter (fun v =>
                !(v.campaign_id == camp.id) &&
                !(s.candidates.any (fun c =>
                    c.campaign_id == camp.id && c.id == v.candidate_id))) },
            CampaignActionOutcome.campaignDeleted) ∧
        camp ∉ (admin_campaigns_post s now (some "delete") nf df af raw).1.campaigns ∧
        (∀ c ∈ (admin_campaigns_post s now (some "delete") nf df af raw).1.candidates,
            c.campaign_id ≠ camp.id) ∧
        (∀ c ∈ s.campaigns, c.id ≠ camp.id →
            c ∈ (admin_campaigns_post s now (some "delete") nf df af raw).1.campaigns)) := by
  have hc_create : ((some "delete" : Option String) == some "create") = false := by decide
  have hc_update : ((some "delete" : Option String) == some "update") = false := by decide
  have hc_toggle : ((some "delete" : Option String) == some "toggle_active") = false := by decide
  have hc_delete : ((some "delete" : Option String) == some "delete") = true := by decide
  constructor
  · rintro ⟨v, hv, hvc⟩
    have hne : (s.votes.filter (fun v => v.campaign_id == camp.id)) ≠ [] := by
      intro hnil
      have hmem : v ∈ s.votes.filter (fun v => v.campaign_id == camp.id) :=
        List.mem_filter.mpr ⟨hv, by simp [hvc]⟩
      rw [hnil] at hmem
      exact List.not_mem_nil v hmem
    have hemp : (s.votes.filter (fun v => v.campaign_id == camp.id)).isEmpty = false :=
      List.isEmpty_eq_false.mpr hne
    simp only [admin_campaigns_post, hparse, hfind, hemp, hc_create, hc_update, hc_toggle,
      hc_delete, Bool.false_eq_true, if_false, if_true, Bool.not_false, Bool.not_true]
  · intro hnone
    have hnil : (s.votes.filter (fun v => v.campaign_id == camp.id)) = [] :=
      List.filter_eq_nil_iff.mpr (fun v hv => by simp [hnone v hv])
    have hemp : (s.votes.filter (fun v => v.campaign_id == camp.id)).isEmpty = true := by
      rw [hnil]
      rfl
    have hres : admin_campaigns_post s now (some "delete") nf df af raw =
        ({ s with
            campaigns := s.campaigns.filter (fun c => !(c.id == camp.id))
            candidates := s.candidates.filter (fun c => !(c.campaign_id == camp.id))
            votes := s.votes.filter (fun v =>
              !(v.campaign_id == camp.id) &&
              !(s.candidates.any (fun c =>
                  c.campaign_id == camp.id && c.id == v.candidate_id))) },
          CampaignActionOutcome.campaignDeleted) := by
      simp only [admin_campaigns_post, hparse, hfind, hemp, hc_create, hc_update, hc_toggle,
        hc_delete, Bool.false_eq_true, if_false, if_true, Bool.not_false, Bool.not_true]
    refine ⟨hres, ?_, ?_, ?_⟩
    · rw [hres]
      intro hmem
      have := (List.mem_filter.mp hmem).2
      simp at this
    · rw [hres]
      intro c hc
      have := (List.mem_filter.mp hc).2
      simpa using this
    · rw [hres]
      intro c hc hne
      exact List.mem_filter.mpr ⟨hc, by simp [hne]⟩

/-- A concrete campaign with one recorded vote, for the C6 witness. -/
def exampleCampaignA : Campaign := Campaign.mk 1 "A" none true 5

/-- A concrete campaign with zero votes, for the C6 witness. -/
def exampleCampaignB : Campaign := Campaign.mk 2 "B" none true 6

/-- A concrete two-campaign state for the C6 witness: campaign 1 has one
vote, campaign 2 has none; each has one candidate. -/
def exampleCampaignState : AppState :=
  AppState.mk [] [exampleCampaignA, exampleCampaignB]
    [Candidate.mk 10 "X" none 1, Candidate.mk 20 "Y" none 2]
    [Vote.mk 100 50 1 10 1 none] 1 3 30 101

/-- C6 witness: `c6_campaign_delete` applied to the concrete state —
deleting voted-on campaign 1 is refused and changes nothing; deleting
vote-free campaign 2 removes it and its candidate. -/
theorem c6_campaign_delete_witness :
    admin_campaigns_post exampleCampaignState 0 (some "delete") none none none (some "1") =
      (exampleCampaignState, CampaignActionOutcome.deleteRefused) ∧
    admin_campaigns_post exampleCampaignState 0 (some "delete") none none none (some "2") =
      ({ exampleCampaignState with
          campaigns := exampleCampaignState.campaigns.filter
            (fun c => !(c.id == exampleCampaignB.id))
          candidates := exampleCampaignState.candidates.filter
            (fun c => !(c.campaign_id == exampleCampaignB.id))
          votes := exampleCampaignState.votes.filter (fun v =>
            !(v.campaign_id == exampleCampaignB.id) &&
            !(exampleCampaignState.candidates.any (fun c =>
                c.campaign_id == exampleCampaignB.id && c.id == v.candidate_id))) },
        CampaignActionOutcome.campaignDeleted) :=
  ⟨(c6_campaign_delete exampleCampaignState 0 1 exampleCampaignA none none none (some "1")
      (by decide) (by decide)).1 (by decide),
   ((c6_campaign_delete exampleCampaignState 0 2 exampleCampaignB none none none (some "2")
      (by decide) (by decide)).2 (by decide)).1⟩

/-- At most one vote per (user_id, campaign_id) pair: no two distinct
positions of the votes table carry the same user and campaign. -/
def one_vote_per_pair (votes : List Vote) : Prop :=
  votes.Pairwise (fun v w => v.user_id ≠ w.user_id ∨ v.campaign_id ≠ w.campaign_id)

/-- C1: the vote-casting operation maintains at most one vote per
(user_id, campaign_id) pair.  First conjunct: casting preserves the
pairwise uniqueness invariant whatever the arguments.  Second conjunct:
when the user already has a vote in the candidate's campaign, the
attempt is rejected with the informational "You have already voted in
this campaign." notice and the state is unchanged.  Third conjunct:
when the user has no vote in the (distinct, active) campaign of the
requested candidate, the vote is inserted. -/
theorem c1_cast_vote_one_per_campaign (key : String) (s : AppState) (cu : User)
    (hinv : one_vote_per_pair s.votes) :
    (∀ cid skf now, one_vote_per_pair ((cast_vote key s cu cid skf now).1.votes)) ∧
    (∀ cid skf now cand camp,
        s.candidates.find? (fun c => c.id == cid) = some cand →
        s.campaigns.find? (fun c => c.id == cand.campaign_id) = some camp →
        cu.is_admin = false →
        cu.verify_security_key (some (pyStrip skf)) = true →
        camp.is_active = true →
        (∃ v ∈ s.votes, v.user_id = cu.id ∧ v.campaign_id = camp.id) →
        cast_vote key s cu cid skf now = (s, CastOutcome.alreadyVoted) ∧
        castFlash CastOutcome.alreadyVoted =
          some ("You have already voted in this campaign.", "info")) ∧
    (∀ cid skf now cand camp,
        s.candidates.find? (fun c => c.id == cid) = some cand →
        s.campaigns.find? (fun c => c.id == cand.campaign_id) = some camp →
        cu.is_admin = false →
        cu.verify_security_key (some (pyStrip skf)) = true →
        camp.is_active = true →
        (∀ v ∈ s.votes, ¬(v.user_id = cu.id ∧ v.campaign_id = camp.id)) →
        cast_vote key s cu cid skf now =
          ({ s with
              votes := s.votes ++ [Vote.mk s.next_vote_id now cu.id cand.id camp.id
                (some (encrypt_choice key cand.name))]
              next_vote_id := s.next_vote_id + 1 }, CastOutcome.voteSubmitted)) := by
  refine ⟨?_, ?_, ?_⟩
  · intro cid skf now
    unfold cast_vote
    dsimp only
    split
    · exact hinv
    · split
      · exact hinv
      · split
        · exact hinv
        · split
          · exact hinv
          · split
            · exact hinv
            · split
              · exact hinv
              · next camp hofound =>
                rename_i cand hcand hcamp hact
                unfold one_vote_per_pair
                dsimp only
                refine List.pairwise_append.mpr ⟨hinv, List.pairwise_singleton _ _, ?_⟩
                intro a ha b hb
                rw [List.mem_singleton.mp hb]
                have hnp := List.find?_eq_none.mp hofound a ha
                simp only [Bool.and_eq_true, beq_iff_eq, not_and] at hnp
                dsimp only
                by_cases hu : a.user_id = cu.id
                · exact Or.inr (hnp hu)
                · exact Or.inl hu
  · intro cid skf now cand camp hcand hcamp hadmin hverify hact hex
    have hsome : (s.votes.find? (fun v =>
        v.user_id == cu.id && v.campaign_id == camp.id)).isSome := by
      rw [List.find?_isSome]
      obtain ⟨v, hv, hv1, hv2⟩ := hex
      exact ⟨v, hv, by simp [hv1, hv2]⟩
    obtain ⟨w, hw⟩ := Option.isSome_iff_exists.mp hsome
    refine ⟨?_, rfl⟩
    unfold cast_vote
    rw [if_neg (by rw [hadmin]; simp), if_neg (by rw [hverify]; simp), hcand]
    dsimp only
    rw [hcamp]
    dsimp only
    rw [if_neg (by rw [hact]; simp), hw]
  · intro cid skf now cand camp hcand hcamp hadmin hverify hact hnone
    have hfnone : s.votes.find? (fun v =>
        v.user_id == cu.id && v.campaign_id == camp.id) = none := by
      rw [List.find?_eq_none]
      intro v hv
      simpa using hnone v hv
    unfold cast_vote
    rw [if_neg (by rw [hadmin]; simp), if_neg (by rw [hverify]; simp), hcand]
    dsimp only
    rw [hcamp]
    dsimp only
    rw [if_neg (by rw [hact]; simp), hfnone]

/-- A concrete non-admin voter for the C1 witness, with security key
"KEY". -/
def exampleVoter : User :=
  User.mk 5 "v" "v@x.com" (generate_password_hash "pw") false
    (some (generate_password_hash "KEY"))

/-- A concrete state for the C1 witness: two active campaigns, one
candidate each; the voter already voted for candidate 10 in
campaign 1. -/
def exampleVoteState : AppState :=
  AppState.mk [exampleVoter]
    [Campaign.mk 1 "A" none true 5, Campaign.mk 2 "B" none true 6]
    [Candidate.mk 10 "X" none 1, Candidate.mk 20 "Y" none 2]
    [Vote.mk 100 50 5 10 1 none] 6 3 30 101

/-- C1 witness: `c1_cast_vote_one_per_campaign` applied to the concrete
state — a second vote in campaign 1 is rejected with the informational
notice and no row is added; a vote in the distinct active campaign 2
succeeds and adds exactly one row; the uniqueness invariant holds after
the successful cast. -/
theorem c1_cast_vote_one_per_campaign_witness :
    (cast_vote "k" exampleVoteState exampleVoter 10 "KEY" 60 =
        (exampleVoteState, CastOutcome.alreadyVoted) ∧
      castFlash CastOutcome.alreadyVoted =
        some ("You have already voted in this campaign.", "info")) ∧
    cast_vote "k" exampleVoteState exampleVoter 20 "KEY" 60 =
      ({ exampleVoteState with
          votes := exampleVoteState.votes ++
            [Vote.mk exampleVoteState.next_vote_id 60 exampleVoter.id
              (Candidate.mk 20 "Y" none 2).id (Campaign.mk 2 "B" none true 6).id
              (some (encrypt_choice "k" (Candidate.mk 20 "Y" none 2).name))]
          next_vote_id := exampleVoteState.next_vote_id + 1 }, CastOutcome.voteSubmitted) ∧
    one_vote_per_pair ((cast_vote "k" exampleVoteState exampleVoter 20 "KEY" 60).1.votes) :=
  ⟨(c1_cast_vote_one_per_campaign "k" exampleVoteState exampleVoter
      (by unfold one_vote_per_pair; decide)).2.1 10 "KEY" 60
      (Candidate.mk 10 "X" none 1) (Campaign.mk 1 "A" none true 5)
      (by decide) (by decide) (by decide) (by decide) (by decide) (by decide),
   (c1_cast_vote_one_per_campaign "k" exampleVoteState exampleVoter
      (by unfold one_vote_per_pair; decide)).2.2 20 "KEY" 60
      (Candidate.mk 20 "Y" none 2) (Campaign.mk 2 "B" none true 6)
      (by decide) (by decide) (by decide) (by decide) (by decide) (by decide),
   (c1_cast_vote_one_per_campaign "k" exampleVoteState exampleVoter
      (by unfold one_vote_per_pair; decide)).1 20 "KEY" 60⟩

/-- C5: an unauthenticated signup with non-empty username and password
and an unregistered email behaves as follows.  If the normalized email
is exactly "1@gmail.com", the account is created with `is_admin = true`
and an absent security-key hash, for EVERY submitted security-key
string.  For any other (non-empty) normalized email, the submission is
rejected when the trimmed security key is empty, and otherwise creates
the account with `is_admin = false` and the hashed trimmed key. -/
theorem c5_signup (s : AppState) (username_form email_form password_form : String)
    (huser : pyStrip username_form ≠ "")
    (hpw : password_form ≠ "")
    (hunreg : s.users.find? (fun u => u.email == pyLower (pyStrip email_form)) = none) :
    (pyLower (pyStrip email_form) = "1@gmail.com" →
        ∀ security_key_form,
          signup_post s false username_form email_form password_form security_key_form =
            ({ s with
                users := s.users ++ [User.mk s.next_user_id (pyStrip username_form)
                  (pyLower (pyStrip email_form)) (generate_password_hash password_form)
                  true none]
                next_user_id := s.next_user_id + 1 }, SignupOutcome.accountCreated)) ∧
    (pyLower (pyStrip email_form) ≠ "1@gmail.com" →
        pyLower (pyStrip email_form) ≠ "" →
        ∀ security_key_form,
          (pyStrip security_key_form = "" →
            signup_post s false username_form email_form password_form security_key_form =
              (s, SignupOutcome.formErrors ["Security key is required for voters."])) ∧
          (pyStrip security_key_form ≠ "" →
            signup_post s false username_form email_form password_form security_key_form =
              ({ s with
                  users := s.users ++ [User.mk s.next_user_id (pyStrip username_form)
                    (pyLower (pyStrip email_form)) (generate_password_hash password_form)
                    false
                    (some (generate_password_hash (pyStrip (pyStrip security_key_form))))]
                  next_user_id := s.next_user_id + 1 }, SignupOutcome.accountCreated))) := by
  constructor
  · intro hp security_key_form
    have hall : ∀ x ∈ s.users, ¬x.email = "1@gmail.com" := by
      intro x hx
      have hx2 := List.find?_eq_none.mp hunreg x hx
      rw [hp] at hx2
      simpa using hx2
    simp [signup_post, hp, huser, hpw, User.set_security_key]
    exact hall
  · intro hne hnee security_key_form
    constructor
    · intro hsk
      simp [signup_post, hne, hnee, huser, hpw, hunreg, hsk]
    · intro hsk
      simp [signup_post, hne, hnee, huser, hpw, hunreg, hsk, User.set_security_key]

/-- C5 witness: `c5_signup` applied to an empty database — the
primary-admin email (submitted with stray case and spaces, and with a
security key that is ignored), and an ordinary email with and without a
security key. -/
theorem c5_signup_witness :
    signup_post (AppState.mk [] [] [] [] 1 1 1 1) false "u" " 1@Gmail.Com " "pw" "ignored" =
      ({ (AppState.mk [] [] [] [] 1 1 1 1) with
          users := [] ++ [User.mk 1 (pyStrip "u") (pyLower (pyStrip " 1@Gmail.Com "))
            (generate_password_hash "pw") true none]
          next_user_id := 2 }, SignupOutcome.accountCreated) ∧
    signup_post (AppState.mk [] [] [] [] 1 1 1 1) false "u" "v@x.com" "pw" " " =
      ((AppState.mk [] [] [] [] 1 1 1 1),
        SignupOutcome.formErrors ["Security key is required for voters."]) ∧
    signup_post (AppState.mk [] [] [] [] 1 1 1 1) false "u" "v@x.com" "pw" " K " =
      ({ (AppState.mk [] [] [] [] 1 1 1 1) with
          users := [] ++ [User.mk 1 (pyStrip "u") (pyLower (pyStrip "v@x.com"))
            (generate_password_hash "pw") false
            (some (generate_password_hash (pyStrip (pyStrip " K "))))]
          next_user_id := 2 }, SignupOutcome.accountCreated) :=
  ⟨(c5_signup (AppState.mk [] [] [] [] 1 1 1 1) "u" " 1@Gmail.Com " "pw"
      (by decide) (by decide) (by decide)).1 (by decide) "ignored",
   ((c5_signup (AppState.mk [] [] [] [] 1 1 1 1) "u" "v@x.com" "pw"
      (by decide) (by decide) (by decide)).2 (by decide) (by decide) " ").1 (by decide),
   ((c5_signup (AppState.mk [] [] [] [] 1 1 1 1) "u" "v@x.com" "pw"
      (by decide) (by decide) (by decide)).2 (by decide) (by decide) " K ").2 (by decide)⟩

/-- A concrete one-voter state for the C4 counterexample: non-admin,
password "pw", security key "KEY". -/
def exampleLoginState : AppState :=
  AppState.mk [exampleVoter] [] [] [] 6 1 1 1

/-- C4 counterexample: with the stored password matching and only the
security key wrong, the login POST flashes the generic "Invalid email
or password." notice IN ADDITION to "Invalid security key." — the
source has no `return` after the security-key flash, so control falls
through to the generic flash.  This refutes the claim that the generic
notice is shown exactly when the user is unknown or the password
mismatches, and that only the security-key notice is shown. -/
theorem c4_counterexample :
    (login_post exampleLoginState "v@x.com" "pw" "WRONG").2 =
      [("Invalid security key.", "danger"), ("Invalid email or password.", "danger")] ∧
    (login_post exampleLoginState "v@x.com" "pw" "WRONG").1 = none ∧
    exampleLoginState.users.find?
      (fun u => u.email == pyLower (pyStrip "v@x.com")) = some exampleVoter ∧
    exampleVoter.check_password "pw" = true := by
  refine ⟨?_, ?_, ?_, ?_⟩ <;> decide

/-- C4 (amended): the generic "Invalid email or password." notice is
shown exactly when no session is established, i.e. whenever login fails
for any reason; when the password matches but a non-admin's security
key fails verification, BOTH "Invalid security key." and the generic
notice are flashed (fall-through) and no session is established; an
unknown email or a wrong password flashes only the generic notice; a
successful login establishes the session with the welcome notice. -/
theorem c4_login_notices (s : AppState) (e p k : String) :
    ((("Invalid email or password.", "danger") ∈ (login_post s e p k).2) ↔
        (login_post s e p k).1 = none) ∧
    (∀ u, s.users.find? (fun x => x.email == pyLower (pyStrip e)) = some u →
        u.check_password p = true →
        u.is_admin = false →
        u.verify_security_key (some (pyStrip k)) = false →
        login_post s e p k =
          (none, [("Invalid security key.", "danger"),
                  ("Invalid email or password.", "danger")])) ∧
    (s.users.find? (fun x => x.email == pyLower (pyStrip e)) = none →
        login_post s e p k = (none, [("Invalid email or password.", "danger")])) ∧
    (∀ u, s.users.find? (fun x => x.email == pyLower (pyStrip e)) = some u →
        u.check_password p = false →
        login_post s e p k = (none, [("Invalid email or password.", "danger")])) ∧
    (∀ u, s.users.find? (fun x => x.email == pyLower (pyStrip e)) = some u →
        u.check_password p = true →
        (u.is_admin = true ∨ u.verify_security_key (some (pyStrip k)) = true) →
        login_post s e p k = (some u.id, [("Welcome back!", "success")])) := by
  refine ⟨?_, ?_, ?_, ?_, ?_⟩
  · unfold login_post
    dsimp only
    cases hf : s.users.find? (fun x => x.email == pyLower (pyStrip e)) with
    | none => simp
    | some u =>
        dsimp only
        split
        · split
          · simp
          · simp
        · simp
  · intro u hf hc ha hk
    unfold login_post
    dsimp only
    rw [hf]
    dsimp only
    have hcond : (!u.is_admin && !(u.verify_security_key (some (pyStrip k)))) = true := by
      rw [ha, hk]
      rfl
    rw [if_pos hc, if_pos hcond]
  · intro hf
    unfold login_post
    dsimp only
    rw [hf]
  · intro u hf hc
    unfold login_post
    dsimp only
    rw [hf]
    dsimp only
    have hnc : ¬(u.check_password p = true) := by
      rw [hc]
      simp
    rw [if_neg hnc]
  · intro u hf hc hok
    unfold login_post
    dsimp only
    rw [hf]
    dsimp only
    have hnc : ¬((!u.is_admin && !(u.verify_security_key (some (pyStrip k)))) = true) := by
      rcases hok with h | h <;> rw [h] <;> simp
    rw [if_pos hc, if_neg hnc]

/-- C4 witness: the hypothesised parts of `c4_login_notices` evaluated
on the concrete one-voter state: key mismatch (both notices), unknown
email, wrong password, and a successful login. -/
theorem c4_login_notices_witness :
    login_post exampleLoginState "v@x.com" "pw" "WRONG" =
      (none, [("Invalid security key.", "danger"),
              ("Invalid email or password.", "danger")]) ∧
    login_post exampleLoginState "nobody@x.com" "pw" "KEY" =
      (none, [("Invalid email or password.", "danger")]) ∧
    login_post exampleLoginState "v@x.com" "bad" "KEY" =
      (none, [("Invalid email or password.", "danger")]) ∧
    login_post exampleLoginState "v@x.com" "pw" " KEY " =
      (some exampleVoter.id, [("Welcome back!", "success")]) :=
  ⟨(c4_login_notices exampleLoginState "v@x.com" "pw" "WRONG").2.1 exampleVoter
      (by decide) (by decide) (by decide) (by decide),
   (c4_login_notices exampleLoginState "nobody@x.com" "pw" "KEY").2.2.1 (by decide),
   (c4_login_notices exampleLoginState "v@x.com" "bad" "KEY").2.2.2.1 exampleVoter
      (by decide) (by decide),
   (c4_login_notices exampleLoginState "v@x.com" "pw" " KEY ").2.2.2.2 exampleVoter
      (by decide) (by decide) (Or.inr (by decide))⟩

/-- A concrete state for the C9 counterexample: campaign 2 is newer
than campaign 1; candidate 10 belongs to campaign 1. -/
def exampleCandidateState : AppState :=
  AppState.mk [] [Campaign.mk 1 "A" none true 10, Campaign.mk 2 "B" none true 20]
    [Candidate.mk 10 "X" none 1] [] 1 3 11 1

/-- C9 counterexample: updating candidate 10 with NO campaign id in the
form (and no query parameter) does not leave its campaign assignment
unchanged — the form value falls back to the selected campaign, which
defaults to the newest campaign (id 2), so the candidate is reassigned
from campaign 1 to campaign 2. -/
theorem c9_counterexample :
    (admin_candidates_post exampleCandidateState none (some "update") "X" "" (some 10)
        none).1.candidates = [Candidate.mk 10 "X" none 2] ∧
    (admin_candidates_post exampleCandidateState none (some "update") "X" "" (some 10)
        none).2 = CandidateActionOutcome.candidateUpdated ∧
    Candidate.mk 10 "X" none 1 ∈ exampleCandidateState.candidates := by
  refine ⟨?_, ?_, ?_⟩ <;> decide

/-- C9 (amended): a candidate `update` with a non-empty name overwrites
the candidate's name and manifesto (manifesto absent if empty after
trim) and reassigns the candidate's campaign to the resolved campaign
id whenever that id is non-zero: the form value when it parses —
without any validation against existing campaigns — and otherwise the
currently selected campaign (the query-selected campaign, defaulting to
the newest).  In particular, when no campaign id is supplied in the
form and no query parameter is given, the candidate is reassigned to
the newest campaign rather than left unchanged. -/
theorem c9_candidate_update (s : AppState) (q : Option Int) (nf mf : String) (cid : Int)
    (raw : Option String) (candidate : Candidate) (first : Campaign) (rest : List Campaign)
    (horder : order_by_created_desc s.campaigns = first :: rest)
    (hname : pyStrip nf ≠ "")
    (hfind : s.candidates.find? (fun c => c.id == cid) = some candidate) :
    (raw = none → q = none → first.id ≠ 0 →
        admin_candidates_post s q (some "update") nf mf (some cid) raw =
          ({ s with candidates := s.candidates.map (fun c =>
              if c.id == candidate.id then
                { c with
                    name := pyStrip nf
                    manifesto := if pyStrip mf = "" then none else some (pyStrip mf)
                    campaign_id := first.id }
              else c) }, CandidateActionOutcome.candidateUpdated)) ∧
    (∀ n rawstr, raw = some rawstr → rawstr ≠ "" → pyInt? rawstr = some n → n ≠ 0 →
        admin_candidates_post s q (some "update") nf mf (some cid) raw =
          ({ s with candidates := s.candidates.map (fun c =>
              if c.id == candidate.id then
                { c with
                    name := pyStrip nf
                    manifesto := if pyStrip mf = "" then none else some (pyStrip mf)
                    campaign_id := n }
              else c) }, CandidateActionOutcome.candidateUpdated)) := by
  constructor
  · intro hraw hq hfz
    subst hraw
    subst hq
    unfold admin_candidates_post
    rw [horder]
    simp [hname, hfind, hfz]
  · intro n rawstr hraw hrne hparse hnz
    subst hraw
    unfold admin_candidates_post
    rw [horder]
    simp [hname, hfind, hrne, hparse, hnz]

/-- C9 witness: `c9_candidate_update` applied to the concrete
two-campaign state — once with no form campaign id (candidate
reassigned to the newest campaign 2), once with form campaign id "77"
that matches no existing campaign (candidate reassigned to 77
anyway). -/
theorem c9_candidate_update_witness :
    admin_candidates_post exampleCandidateState none (some "update") "X2" " m " (some 10)
        none =
      ({ exampleCandidateState with
          candidates := exampleCandidateState.candidates.map (fun c =>
            if c.id == (Candidate.mk 10 "X" none 1).id then
              { c with
                  name := pyStrip "X2"
                  manifesto := if pyStrip " m " = "" then none else some (pyStrip " m ")
                  campaign_id := (Campaign.mk 2 "B" none true 20).id }
            else c) }, CandidateActionOutcome.candidateUpdated) ∧
    admin_candidates_post exampleCandidateState none (some "update") "X2" " m " (some 10)
        (some "77") =
      ({ exampleCandidateState with
          candidates := exampleCandidateState.candidates.map (fun c =>
            if c.id == (Candidate.mk 10 "X" none 1).id then
              { c with
                  name := pyStrip "X2"
                  manifesto := if pyStrip " m " = "" then none else some (pyStrip " m ")
                  campaign_id := 77 }
            else c) }, CandidateActionOutcome.candidateUpdated) :=
  ⟨(c9_candidate_update exampleCandidateState none "X2" " m " 10 none
      (Candidate.mk 10 "X" none 1) (Campaign.mk 2 "B" none true 20)
      [Campaign.mk 1 "A" none true 10] (by decide) (by decide) (by decide)).1
      rfl rfl (by decide),
   (c9_candidate_update exampleCandidateState none "X2" " m " 10 (some "77")
      (Candidate.mk 10 "X" none 1) (Campaign.mk 2 "B" none true 20)
      [Campaign.mk 1 "A" none true 10] (by decide) (by decide) (by decide)).2
      77 "77" rfl (by decide) (by decide) (by decide)⟩

end Voting
